import Mathlib

/-!
Shallow embedding of the authentication token lifecycle and brute-force
defense subsystem of the Home-Organization-App backend.

Sources embedded here:
- src/backend/app/services/rate_limiter.py (RateLimiter)
- src/backend/app/api/deps.py (check_token_blocklist, get_current_user)
- src/backend/app/api/auth.py (token issuing, verify_refresh_token,
  block_access_token, block_refresh_token, revoke_all_user_tokens,
  login, refresh_tokens, logout, logout_all_devices)
- src/backend/app/db/models/refresh_token.py (RefreshToken)
- src/backend/app/db/models/token_blocklist.py (TokenBlocklist)
- src/backend/app/celery_tasks/maintenance.py (cleanup_expired_tokens)

Modelling conventions: time is a Nat (seconds, datetime.utcnow); a JWT
bearer string is either a token that fails signature verification
(Token.malformed) or a signed claims record (Token.signed); the Redis
counter store is a list of (key, value, absolute-expiry) entries, with an
extra constructor for an unreachable / raising store; the SQL tables are
lists of rows.  uuid4 jti generation is modelled by a deterministic
fresh-name source (a Nat counter) with an injective encoding into strings.
-/

deriving instance DecidableEq for Except

/-- Configuration values read from app.config.settings. -/
structure Settings where
  access_token_expire_minutes : Nat
  refresh_token_expire_days : Nat
  brute_force_max_attempts : Nat
  brute_force_lockout_minutes : Nat
  rate_limit_enabled : Bool
  rate_limit_per_minute : Nat
  rate_limit_per_hour : Nat
  deriving Repr, DecidableEq

/-- Row of the users table (the fields consumed by this subsystem). -/
structure UserRow where
  id : Nat
  email : String
  hashed_password : String
  is_active : Bool
  deriving Repr, DecidableEq

/-- Row of the refresh_tokens table (app/db/models/refresh_token.py). -/
structure RefreshTokenRow where
  id : Nat
  user_id : Nat
  jti : String
  expires_at : Nat
  created_at : Nat
  revoked : Bool
  revoked_at : Option Nat
  device_info : Option String
  ip_address : Option String
  deriving Repr, DecidableEq

/-- Row of the token_blocklist table (app/db/models/token_blocklist.py). -/
structure BlocklistRow where
  jti : String
  token_type : String
  user_id : Option Nat
  expires_at : Nat
  revoked_at : Nat
  reason : Option String
  deriving Repr, DecidableEq

/-- The durable store: users, refresh_tokens and token_blocklist tables,
plus the surrogate-key source for new refresh-token rows. -/
structure DB where
  users : List UserRow
  refresh_tokens : List RefreshTokenRow
  blocklist : List BlocklistRow
  next_row_id : Nat
  deriving Repr, DecidableEq

/-- JWT claims relevant to this subsystem.  Absent claims are none. -/
structure Claims where
  sub : Option String
  jti : Option String
  exp : Option Nat
  typ : Option String
  deriving Repr, DecidableEq

/-- A presented bearer token: either it fails signature verification under
the server key, or it verifies and decodes to a claims record. -/
inductive Token where
  | malformed : Token
  | signed : Claims → Token
  deriving Repr, DecidableEq

/-- Request data consumed by RateLimiter._get_client_ip. -/
structure ClientRequest where
  x_forwarded_for : Option String
  x_real_ip : Option String
  client_host : Option String
  deriving Repr, DecidableEq

/-- One Redis key with its value and absolute expiry time.  The key is
alive at time now iff now < expires_at. -/
structure RedisEntry where
  key : String
  value : Nat
  expires_at : Nat
  deriving Repr, DecidableEq

/-- The counter store: absent models self.redis_client is None, failing
models a store whose operations raise, ok holds the live entries. -/
inductive CounterStore where
  | absent : CounterStore
  | failing : CounterStore
  | ok : List RedisEntry → CounterStore
  deriving Repr, DecidableEq

/-- Drop leading and trailing spaces from a character list (str.strip). -/
def stripSpaces (l : List Char) : List Char :=
  ((l.dropWhile (· = ' ')).reverse.dropWhile (· = ' ')).reverse

/-- First comma-separated segment of a string, stripped; this embeds
forwarded_for.split(",")[0].strip() from RateLimiter._get_client_ip. -/
def firstSegmentStripped (s : String) : String :=
  String.mk (stripSpaces (s.data.takeWhile (· ≠ ',')))

/-- Embeds str.strip() on a whole header value. -/
def pyStrip (s : String) : String :=
  String.mk (stripSpaces s.data)

/-- RateLimiter._get_client_ip: X-Forwarded-For first segment, else
X-Real-IP, else the raw connection address, else "unknown". -/
def getClientIp (req : ClientRequest) : String :=
  match req.x_forwarded_for with
  | some fwd => firstSegmentStripped fwd
  | none =>
    match req.x_real_ip with
    | some rip => pyStrip rip
    | none =>
      match req.client_host with
      | some h => h
      | none => "unknown"

/-- RateLimiter._get_key. -/
def rateLimitKey (pre ident : String) : String :=
  "rate_limit:" ++ pre ++ ":" ++ ident

/-- Redis GET at time now: the stored value if the key exists and has not
yet expired.  The store drops keys exactly when their TTL has elapsed, so
liveness is now < expires_at. -/
def redisGet (now : Nat) (st : List RedisEntry) (k : String) : Option Nat :=
  (st.find? (fun e => e.key == k && now < e.expires_at)).map (·.value)

/-- Redis SETEX at time now: replace any entry for the key with value v
expiring ttl seconds from now. -/
def redisSetex (now : Nat) (st : List RedisEntry) (k : String) (ttl v : Nat) :
    List RedisEntry :=
  ⟨k, v, now + ttl⟩ :: st.filter (fun e => e.key ≠ k)

/-- Redis DEL. -/
def redisDel (st : List RedisEntry) (k : String) : List RedisEntry :=
  st.filter (fun e => e.key ≠ k)

/-- Redis TTL at time now, as the remaining seconds if the key is alive. -/
def redisTtl (now : Nat) (st : List RedisEntry) (k : String) : Option Nat :=
  (st.find? (fun e => e.key == k && now < e.expires_at)).map (·.expires_at - now)

/-- RateLimiter.record_failed_login: absent client and raising store both
return (0, False); otherwise read the counter, add one, SETEX it with the
lockout-window TTL, and report lockout once the count reaches
BRUTE_FORCE_MAX_ATTEMPTS.  Returns ((attempt_count, is_locked_out),
updated store). -/
def record_failed_login (cfg : Settings) (now : Nat) (cs : CounterStore)
    (ident : String) : (Nat × Bool) × CounterStore :=
  match cs with
  | .absent => ((0, false), .absent)
  | .failing => ((0, false), .failing)
  | .ok st =>
    let key := rateLimitKey "brute_force" ident
    let attempt_count := (redisGet now st key).getD 0 + 1
    let st' := redisSetex now st key (cfg.brute_force_lockout_minutes * 60) attempt_count
    let is_locked_out := cfg.brute_force_max_attempts ≤ attempt_count
    ((attempt_count, is_locked_out), .ok st')

/-- RateLimiter.reset_failed_logins: DEL the counter; no-ops when the
client is absent or the store raises. -/
def reset_failed_logins (cs : CounterStore) (ident : String) : CounterStore :=
  match cs with
  | .absent => .absent
  | .failing => .failing
  | .ok st => .ok (redisDel st (rateLimitKey "brute_force" ident))

/-- RateLimiter.get_remaining_attempts: max(0, max_attempts - count);
absent client and raising store both report the full allowance. -/
def get_remaining_attempts (cfg : Settings) (now : Nat) (cs : CounterStore)
    (ident : String) : Nat :=
  match cs with
  | .absent => cfg.brute_force_max_attempts
  | .failing => cfg.brute_force_max_attempts
  | .ok st =>
    let attempt_count := (redisGet now (st) (rateLimitKey "brute_force" ident)).getD 0
    cfg.brute_force_max_attempts - attempt_count

/-- RateLimiter.get_lockout_ttl: the counter key TTL when positive, else
none; absent client and raising store both report none. -/
def get_lockout_ttl (now : Nat) (cs : CounterStore) (ident : String) :
    Option Nat :=
  match cs with
  | .absent => none
  | .failing => none
  | .ok st =>
    match redisTtl now st (rateLimitKey "brute_force" ident) with
    | some t => if 0 < t then some t else none
    | none => none

/-- RateLimiter.check_rate_limit: allow when disabled, when the client is
absent, or when the store raises; otherwise deny when either window
counter already reached its limit, else bump both counters.  Returns
((is_allowed, error_message), updated store). -/
def check_rate_limit (cfg : Settings) (now : Nat) (cs : CounterStore)
    (req : ClientRequest) : (Bool × Option String) × CounterStore :=
  if !cfg.rate_limit_enabled then ((true, none), cs)
  else
    match cs with
    | .absent => ((true, none), .absent)
    | .failing => ((true, none), .failing)
    | .ok st =>
      let ip := getClientIp req
      let minute_key := rateLimitKey "minute" ip
      let hour_key := rateLimitKey "hour" ip
      match redisGet now st minute_key with
      | some mc =>
        if cfg.rate_limit_per_minute ≤ mc then
          ((false, some "Rate limit exceeded: requests per minute"), .ok st)
        else
          match redisGet now st hour_key with
          | some hc =>
            if cfg.rate_limit_per_hour ≤ hc then
              ((false, some "Rate limit exceeded: requests per hour"), .ok st)
            else
              let st1 := redisSetex now st minute_key 60 (mc + 1)
              let st2 := redisSetex now st1 hour_key 3600 (hc + 1)
              ((true, none), .ok st2)
          | none =>
            let st1 := redisSetex now st minute_key 60 (mc + 1)
            let st2 := redisSetex now st1 hour_key 3600 1
            ((true, none), .ok st2)
      | none =>
        match redisGet now st hour_key with
        | some hc =>
          if cfg.rate_limit_per_hour ≤ hc then
            ((false, some "Rate limit exceeded: requests per hour"), .ok st)
          else
            let st1 := redisSetex now st minute_key 60 1
            let st2 := redisSetex now st1 hour_key 3600 (hc + 1)
            ((true, none), .ok st2)
        | none =>
          let st1 := redisSetex now st minute_key 60 1
          let st2 := redisSetex now st1 hour_key 3600 1
          ((true, none), .ok st2)

/-- Injective deterministic stand-in for uuid.uuid4 jti generation: the
n-th fresh unique-id.  Injectivity mirrors the negligible-collision
assumption on uuid4. -/
def freshJti (n : Nat) : String :=
  String.mk (List.replicate n 'u')

/-- Stand-in for bcrypt hashing (passlib get_password_hash). -/
def get_password_hash (password : String) : String :=
  "bcrypt$" ++ password

/-- Stand-in for bcrypt verification (passlib verify): a hash verifies
exactly the password it was derived from. -/
def verify_password (plain hashed : String) : Bool :=
  hashed == get_password_hash plain

/-- Expiry test jose applies while decoding: with the exp claim present
the token is expired once exp < now; an absent exp claim is not checked. -/
def tokExpired (now : Nat) (c : Claims) : Bool :=
  match c.exp with
  | some e => e < now
  | none => false

/-- Python truthiness of an optional string claim (absent or empty is
falsy). -/
def truthyStr : Option String → Bool
  | some s => s ≠ ""
  | none => false

/-- Python truthiness of an optional integer claim (absent or zero is
falsy). -/
def truthyNat : Option Nat → Bool
  | some n => n ≠ 0
  | none => false

/-- jwt.decode with signature verification and the default exp check. -/
def jwtDecode (now : Nat) (t : Token) : Option Claims :=
  match t with
  | .malformed => none
  | .signed c => if tokExpired now c then none else some c

/-- jwt.decode with verify_exp disabled (the logout paths): signature is
still enforced but expiry is ignored. -/
def jwtDecodeNoExp (t : Token) : Option Claims :=
  match t with
  | .malformed => none
  | .signed c => some c

/-- create_access_token (auth.py): claims {sub, exp = now + access TTL,
type = access, jti fresh}.  The fresh-name counter plays uuid4's role and
is returned bumped. -/
def create_access_token (cfg : Settings) (now : Nat) (sub : String)
    (gen : Nat) : Token × Nat :=
  (.signed { sub := some sub
           , jti := some (freshJti gen)
           , exp := some (now + cfg.access_token_expire_minutes * 60)
           , typ := some "access" }, gen + 1)

/-- create_refresh_token (auth.py): mint the refresh JWT and insert the
matching refresh_tokens row.  Returns (token, stored row, db, bumped
counter). -/
def create_refresh_token (cfg : Settings) (now : Nat) (db : DB)
    (user : UserRow) (device_info ip_address : Option String) (gen : Nat) :
    Token × RefreshTokenRow × DB × Nat :=
  let jti := freshJti gen
  let expires_at := now + cfg.refresh_token_expire_days * 86400
  let tok : Token := .signed { sub := some user.email
                             , jti := some jti
                             , exp := some expires_at
                             , typ := some "refresh" }
  let row : RefreshTokenRow :=
    { id := db.next_row_id
    , user_id := user.id
    , jti := jti
    , expires_at := expires_at
    , created_at := now
    , revoked := false
    , revoked_at := none
    , device_info := device_info
    , ip_address := ip_address }
  (tok, row,
    { db with
        refresh_tokens := db.refresh_tokens ++ [row],
        next_row_id := db.next_row_id + 1 },
    gen + 1)

/-- get_user_by_email (deps.py): first users row with the given email. -/
def findUserByEmail (db : DB) (email : String) : Option UserRow :=
  db.users.find? (fun u => u.email == email)

/-- check_token_blocklist (deps.py): a blocklist row with this jti exists
whose expires_at is still in the future. -/
def check_token_blocklist (now : Nat) (db : DB) (jti : String) : Bool :=
  db.blocklist.any (fun e => e.jti == jti && now < e.expires_at)

/-- block_access_token (auth.py): idempotent insert of an access-type
blocklist row keyed by jti; an existing row with the jti is returned
unchanged regardless of its expiry. -/
def block_access_token (now : Nat) (db : DB) (jti : String)
    (expires_at : Nat) (user_id : Option Nat) (reason : Option String) : DB :=
  if db.blocklist.any (fun e => e.jti == jti) then db
  else { db with blocklist :=
          db.blocklist ++ [{ jti := jti, token_type := "access"
                           , user_id := user_id, expires_at := expires_at
                           , revoked_at := now, reason := reason }] }

/-- block_refresh_token (auth.py): idempotent insert of a refresh-type
blocklist row keyed by jti. -/
def block_refresh_token (now : Nat) (db : DB) (jti : String)
    (expires_at : Nat) (user_id : Option Nat) (reason : Option String) : DB :=
  if db.blocklist.any (fun e => e.jti == jti) then db
  else { db with blocklist :=
          db.blocklist ++ [{ jti := jti, token_type := "refresh"
                           , user_id := user_id, expires_at := expires_at
                           , revoked_at := now, reason := reason }] }

/-- RefreshToken.revoke applied through the session: flip revoked and set
revoked_at on the row the ORM object denotes, i.e. the first row with
this jti that is not yet revoked. -/
def revokeFirst (now : Nat) : List RefreshTokenRow → String → List RefreshTokenRow
  | [], _ => []
  | r :: rs, j =>
    if r.jti == j && !r.revoked then
      { r with revoked := true, revoked_at := some now } :: rs
    else
      r :: revokeFirst now rs j

/-- Persist RefreshToken.revoke for the row carrying the given jti. -/
def revokeTokenRow (now : Nat) (db : DB) (j : String) : DB :=
  { db with refresh_tokens := revokeFirst now db.refresh_tokens j }

/-- Internal failure reasons of get_current_user (deps.py), one per raise
site. -/
inductive AuthError where
  | malformed : AuthError
  | expired : AuthError
  | wrongType : AuthError
  | missingSub : AuthError
  | revokedToken : AuthError
  | unknownSubject : AuthError
  | inactiveSubject : AuthError
  deriving Repr, DecidableEq

/-- get_current_user (deps.py) with each rejection tagged by the check
that raised it.  jose decodes (signature first, then exp), then the type
check, then sub extraction (raising on absent sub), then the blocklist
lookup guarded by jti truthiness, then user lookup and the active flag. -/
def get_current_userE (now : Nat) (db : DB) (t : Token) :
    Except AuthError UserRow :=
  match t with
  | .malformed => .error .malformed
  | .signed c =>
    if tokExpired now c then .error .expired
    else if c.typ ≠ some "access" then .error .wrongType
    else
      match c.sub with
      | none => .error .missingSub
      | some email =>
        if truthyStr c.jti && check_token_blocklist now db (c.jti.getD "") then
          .error .revokedToken
        else
          match findUserByEmail db email with
          | none => .error .unknownSubject
          | some u =>
            if !u.is_active then .error .inactiveSubject else .ok u

/-- Shape of an HTTP error response: status code, detail string, and
whether a WWW-Authenticate header is attached. -/
structure HttpResp where
  status : Nat
  detail : String
  www_authenticate : Bool
  deriving Repr, DecidableEq

/-- The credentials_exception of get_current_user. -/
def credResp : HttpResp :=
  { status := 401, detail := "לא ניתן לאמת את הכרטיסייה", www_authenticate := true }

/-- The response each get_current_user raise site produces. -/
def errResponse : AuthError → HttpResp
  | .malformed => credResp
  | .expired => credResp
  | .wrongType => credResp
  | .missingSub => credResp
  | .revokedToken =>
    { status := 401, detail := "Token has been revoked", www_authenticate := true }
  | .unknownSubject => credResp
  | .inactiveSubject =>
    { status := 403, detail := "User account is inactive", www_authenticate := false }

/-- Observable outcome of presenting a token to get_current_user. -/
def get_current_userResp (now : Nat) (db : DB) (t : Token) :
    Except HttpResp UserRow :=
  (get_current_userE now db t).mapError errResponse

/-- Internal failure reasons of verify_refresh_token (auth.py), one per
raise site; jose failures (bad signature or expired exp claim) collapse
into couldNotValidate by the except-JWTError handler. -/
inductive RefreshVerifyError where
  | couldNotValidate : RefreshVerifyError
  | invalidTokenType : RefreshVerifyError
  | invalidPayload : RefreshVerifyError
  | revokedOrMissing : RefreshVerifyError
  | expiredRecord : RefreshVerifyError
  | userNotFoundOrInactive : RefreshVerifyError
  deriving Repr, DecidableEq

/-- verify_refresh_token (auth.py): decode (signature then exp), require
type refresh, require truthy jti and sub, look up the non-revoked row for
the jti, require the row unexpired, resolve the user and require it
active.  Returns the user and the row. -/
def verify_refresh_token (now : Nat) (db : DB) (t : Token) :
    Except RefreshVerifyError (UserRow × RefreshTokenRow) :=
  match t with
  | .malformed => .error .couldNotValidate
  | .signed c =>
    if tokExpired now c then .error .couldNotValidate
    else if c.typ ≠ some "refresh" then .error .invalidTokenType
    else if !(truthyStr c.jti && truthyStr c.sub) then .error .invalidPayload
    else
      let j := c.jti.getD ""
      let email := c.sub.getD ""
      match db.refresh_tokens.find? (fun r => r.jti == j && !r.revoked) with
      | none => .error .revokedOrMissing
      | some row =>
        if !(!row.revoked && now < row.expires_at) then .error .expiredRecord
        else
          match findUserByEmail db email with
          | none => .error .userNotFoundOrInactive
          | some u =>
            if !u.is_active then .error .userNotFoundOrInactive
            else .ok (u, row)

/-- revoke_all_user_tokens (auth.py): bulk UPDATE every non-revoked row of
the user to revoked with revoked_at set, then (second query, now against
the already-updated table) mirror every still-non-revoked row of the user
into the blocklist.  Returns the updated db and the UPDATE row count. -/
def revoke_all_user_tokens (now : Nat) (db : DB) (user_id : Nat) : DB × Nat :=
  let refresh_count :=
    (db.refresh_tokens.filter (fun r => r.user_id == user_id && !r.revoked)).length
  let db1 : DB :=
    { db with refresh_tokens :=
        db.refresh_tokens.map (fun r =>
          if r.user_id == user_id && !r.revoked then
            { r with revoked := true, revoked_at := some now }
          else r) }
  let to_block := db1.refresh_tokens.filter (fun r => r.user_id == user_id && !r.revoked)
  let db2 := to_block.foldl
    (fun d r => block_refresh_token now d r.jti r.expires_at (some user_id)
      (some "User logout all devices")) db1
  (db2, refresh_count)

/-- Observable result of the login endpoint. -/
inductive LoginResult where
  | lockedOut : Nat → LoginResult
  | badCredentials : Nat → LoginResult
  | success : Token → Token → Nat → LoginResult
  deriving Repr, DecidableEq

/-- login (auth.py): build the (client-ip, username) identifier, record
the attempt in the Brute-Force Guard (this increments before credentials
are checked), reject 429 when locked out, check credentials and reject
401 with the remaining allowance on mismatch, else reset the counter and
mint the access and refresh tokens. -/
def login (cfg : Settings) (now : Nat) (db : DB) (cs : CounterStore)
    (gen : Nat) (client_ip username password : String)
    (user_agent : Option String) :
    LoginResult × DB × CounterStore × Nat :=
  let ident := client_ip ++ ":" ++ username
  let rec_out := record_failed_login cfg now cs ident
  let attempt := rec_out.1
  let cs1 := rec_out.2
  if attempt.2 then
    let minutes :=
      match get_lockout_ttl now cs1 ident with
      | some t => if t ≠ 0 then t / 60 + 1 else cfg.brute_force_lockout_minutes
      | none => cfg.brute_force_lockout_minutes
    (.lockedOut minutes, db, cs1, gen)
  else
    match findUserByEmail db username with
    | none =>
      (.badCredentials (get_remaining_attempts cfg now cs1 ident), db, cs1, gen)
    | some user =>
      if !verify_password password user.hashed_password then
        (.badCredentials (get_remaining_attempts cfg now cs1 ident), db, cs1, gen)
      else
        let cs2 := reset_failed_logins cs1 ident
        let acc := create_access_token cfg now user.email gen
        let rt := create_refresh_token cfg now db user user_agent (some client_ip) acc.2
        (.success acc.1 rt.1 (cfg.access_token_expire_minutes * 60), rt.2.2.1, cs2, rt.2.2.2)

/-- Revocation phase of refresh_tokens (auth.py): revoke the presented
row and mirror its jti into the blocklist; this is committed before any
new token is issued. -/
def rotate_revoke_phase (now : Nat) (db : DB) (user : UserRow)
    (old : RefreshTokenRow) : DB :=
  block_refresh_token now (revokeTokenRow now db old.jti) old.jti
    old.expires_at (some user.id) (some "Token rotation")

/-- refresh_tokens (auth.py): verify the presented refresh token, revoke
it and mirror it into the blocklist, then mint a fresh access token and a
fresh refresh token.  Returns (access, new refresh, db, counter) on
success. -/
def refresh_tokens_op (cfg : Settings) (now : Nat) (db : DB) (gen : Nat)
    (t : Token) (client_ip : Option String) (user_agent : Option String) :
    Except RefreshVerifyError (Token × Token × DB × Nat) :=
  match verify_refresh_token now db t with
  | .error e => .error e
  | .ok (user, old) =>
    let db2 := rotate_revoke_phase now db user old
    let acc := create_access_token cfg now user.email gen
    let rt := create_refresh_token cfg now db2 user user_agent client_ip acc.2
    .ok (acc.1, rt.1, rt.2.2.1, rt.2.2.2)

/-- Access-token half of logout (auth.py): decode the bearer header token
with verify_exp disabled; when jti and exp are both truthy, blocklist the
jti (resolving user_id from sub best-effort); any jose failure is
swallowed. -/
def logout_access_phase (now : Nat) (db : DB) (access : Option Token) : DB :=
  match access with
  | none => db
  | some t =>
    match jwtDecodeNoExp t with
    | none => db
    | some c =>
      if truthyStr c.jti && truthyNat c.exp then
        let uid :=
          match c.sub with
          | some em => (findUserByEmail db em).map (·.id)
          | none => none
        block_access_token now db (c.jti.getD "") (c.exp.getD 0) uid
          (some "User logout")
      else db

/-- Refresh-token half of logout (auth.py): verify the body token; on
success revoke its row and mirror it into the blocklist; any verification
failure is swallowed. -/
def logout_refresh_phase (now : Nat) (db : DB) (refresh : Option Token) : DB :=
  match refresh with
  | none => db
  | some rt =>
    match verify_refresh_token now db rt with
    | .error _ => db
    | .ok (_, row) =>
      block_refresh_token now (revokeTokenRow now db row.jti) row.jti
        row.expires_at (some row.user_id) (some "User logout")

/-- logout (auth.py): best-effort on both optional inputs, always
204 no-content. -/
def logout (now : Nat) (db : DB) (access refresh : Option Token) : Nat × DB :=
  (204, logout_refresh_phase now (logout_access_phase now db access) refresh)

/-- logout_all_devices (auth.py): requires the bearer token to pass
get_current_user; then revoke_all_user_tokens, then blocklist the bearer
token itself (decoded with verify_exp disabled).  Always 204 once
authenticated. -/
def logout_all_devices (now : Nat) (db : DB) (t : Token) :
    Except HttpResp (Nat × DB) :=
  match get_current_userResp now db t with
  | .error e => .error e
  | .ok user =>
    let db1 := (revoke_all_user_tokens now db user.id).1
    let db2 :=
      match jwtDecodeNoExp t with
      | none => db1
      | some c =>
        if truthyStr c.jti && truthyNat c.exp then
          block_access_token now db1 (c.jti.getD "") (c.exp.getD 0)
            (some user.id) (some "User logout all devices")
        else db1
    .ok (204, db2)

/-- cleanup_expired_tokens (celery_tasks/maintenance.py): delete blocklist
rows past expiry and refresh rows that are revoked and expired more than
the 7-day audit grace period ago. -/
def cleanup_expired_tokens (now : Nat) (db : DB) : DB :=
  let audit_cutoff := now - 7 * 86400
  { db with
      blocklist := db.blocklist.filter (fun e => !(e.expires_at < now)),
      refresh_tokens := db.refresh_tokens.filter
        (fun r => !(r.expires_at < audit_cutoff && r.revoked)) }

/-- Modelled from the spec wording of claim C5: a validator that checks
signature, then type, then expiry, then the registry, then subject
resolution, rejecting with the earliest failing check in that order.
Written for comparison against get_current_userE, which embeds the
code. -/
def spec_order_validate (now : Nat) (db : DB) (t : Token) :
    Except AuthError UserRow :=
  match t with
  | .malformed => .error .malformed
  | .signed c =>
    if c.typ ≠ some "access" then .error .wrongType
    else if tokExpired now c then .error .expired
    else if truthyStr c.jti && check_token_blocklist now db (c.jti.getD "") then
      .error .revokedToken
    else
      match c.sub with
      | none => .error .missingSub
      | some email =>
        match findUserByEmail db email with
        | none => .error .unknownSubject
        | some u =>
          if !u.is_active then .error .inactiveSubject else .ok u

/-- True exactly on the locked-out login outcome. -/
def LoginResult.isLockedOut : LoginResult → Bool
  | .lockedOut _ => true
  | _ => false

/-- True exactly on the successful login outcome. -/
def LoginResult.isSuccess : LoginResult → Bool
  | .success _ _ _ => true
  | _ => false

/-- Counter store after k consecutive login attempts with the given
password, all at time now (db and gen are untouched by rejected
attempts; the iteration tracks only the Brute-Force Guard state). -/
def loginAttemptsCS (cfg : Settings) (now : Nat) (db : DB) (gen : Nat)
    (client_ip username password : String) (ua : Option String) :
    Nat → CounterStore → CounterStore
  | 0, cs => cs
  | k + 1, cs =>
    (login cfg now db
      (loginAttemptsCS cfg now db gen client_ip username password ua k cs)
      gen client_ip username password ua).2.2.1

/-- Whole-system state: durable store, counter store, fresh-name
counter. -/
structure SysState where
  db : DB
  counters : CounterStore
  gen : Nat
  deriving Repr, DecidableEq

/-- The operations of the subsystem, each carrying the time it runs at
and its request data. -/
inductive AuthOp where
  | loginOp : Nat → String → String → String → Option String → AuthOp
  | refreshOp : Nat → Token → Option String → Option String → AuthOp
  | logoutOp : Nat → Option Token → Option Token → AuthOp
  | logoutAllOp : Nat → Token → AuthOp
  | validateOp : Nat → Token → AuthOp
  | cleanupOp : Nat → AuthOp
  deriving Repr, DecidableEq

/-- One step of the subsystem: each constructor dispatches to the
endpoint embedding; rejected requests leave the state unchanged, and
get_current_user performs no writes, so validateOp is the identity on
state. -/
def step (cfg : Settings) : AuthOp → SysState → SysState
  | .loginOp now ip username password ua, s =>
    let r := login cfg now s.db s.counters s.gen ip username password ua
    { db := r.2.1, counters := r.2.2.1, gen := r.2.2.2 }
  | .refreshOp now t ip ua, s =>
    match refresh_tokens_op cfg now s.db s.gen t ip ua with
    | .error _ => s
    | .ok (_, _, db', gen') => { s with db := db', gen := gen' }
  | .logoutOp now a r, s => { s with db := (logout now s.db a r).2 }
  | .logoutAllOp now t, s =>
    match logout_all_devices now s.db t with
    | .error _ => s
    | .ok (_, db') => { s with db := db' }
  | .validateOp _ _, s => s
  | .cleanupOp now, s => { s with db := cleanup_expired_tokens now s.db }

/-- Run a sequence of operations left to right. -/
def runOps (cfg : Settings) (ops : List AuthOp) (s : SysState) : SysState :=
  ops.foldl (fun s op => step cfg op s) s

/-- Data-model invariant of the refresh_tokens table: a revoked row has
revoked_at set. -/
def RevokedAtInv (db : DB) : Prop :=
  ∀ r ∈ db.refresh_tokens, r.revoked = true → r.revoked_at ≠ none

/-- Freshness of the name source: no stored jti collides with any unique-id
the generator can still produce (uuid4 non-collision, carried as a state
invariant). -/
def GenFresh (s : SysState) : Prop :=
  ∀ r ∈ s.db.refresh_tokens, ∀ g, s.gen ≤ g → r.jti ≠ freshJti g

/-- Every refresh row carrying this jti is revoked. -/
def AllRevoked (db : DB) (j : String) : Prop :=
  ∀ r ∈ db.refresh_tokens, r.jti = j → r.revoked = true

/-- A string no future output of the fresh-name source equals. -/
def JtiNotFresh (gen : Nat) (j : String) : Prop :=
  ∀ g, gen ≤ g → j ≠ freshJti g

/-- Fixture: empty durable store. -/
def dbEmpty : DB := { users := [], refresh_tokens := [], blocklist := [], next_row_id := 0 }

/-- Fixture: store with one active user, one inactive user and one
blocklist entry for jti j1 expiring at 100. -/
def dbC4 : DB :=
  { users := [ { id := 1, email := "a@b.com", hashed_password := "h", is_active := true }
             , { id := 2, email := "i@b.com", hashed_password := "h", is_active := false } ]
  , refresh_tokens := []
  , blocklist := [ { jti := "j1", token_type := "access", user_id := some 1
                   , expires_at := 100, revoked_at := 0, reason := none } ]
  , next_row_id := 1 }

/-- Fixture: well-signed access token whose jti is blocklisted in dbC4. -/
def tokRevokedC4 : Token :=
  .signed { sub := some "a@b.com", jti := some "j1", exp := some 50, typ := some "access" }

/-- Fixture: well-signed access token of the inactive user of dbC4. -/
def tokInactiveC4 : Token :=
  .signed { sub := some "i@b.com", jti := some "j2", exp := some 50, typ := some "access" }

/-- Fixture: signed token that is both expired and of the wrong type. -/
def tokExpiredWrongType : Token :=
  .signed { sub := some "a@b.com", jti := some "x", exp := some 0, typ := some "refresh" }

/-- Fixture: store holding exactly one active refresh row, owned by user
7, with jti r1. -/
def dbC2 : DB :=
  { users := []
  , refresh_tokens := [ { id := 1, user_id := 7, jti := "r1", expires_at := 1000
                        , created_at := 0, revoked := false, revoked_at := none
                        , device_info := none, ip_address := none } ]
  , blocklist := []
  , next_row_id := 2 }

/-- Fixture: jti-less but otherwise valid access-token claims for the
active user of dbC4. -/
def claimsNoJti : Claims :=
  { sub := some "a@b.com", jti := none, exp := some 50, typ := some "access" }

/-- The Brute-Force Guard key login uses for a client ip and username. -/
def bruteKey (ip username : String) : String :=
  rateLimitKey "brute_force" (ip ++ ":" ++ username)

/-- Expected guard-store contents after k consecutive same-time failed
attempts from a fresh store. -/
def guardStateK (key : String) (now lockoutSecs : Nat) : Nat → List RedisEntry
  | 0 => []
  | k + 1 => [{ key := key, value := k + 1, expires_at := now + lockoutSecs }]

/-- Fixture: settings with the config defaults (15-minute access TTL,
30-day refresh TTL, 5 attempts, 15-minute lockout, limiter on, 60/min,
1000/hour). -/
def cfgDefault : Settings :=
  { access_token_expire_minutes := 15, refresh_token_expire_days := 30
  , brute_force_max_attempts := 5, brute_force_lockout_minutes := 15
  , rate_limit_enabled := true, rate_limit_per_minute := 60
  , rate_limit_per_hour := 1000 }

/-- Fixture: store with one active user whose password is pw. -/
def dbLogin : DB :=
  { users := [ { id := 1, email := "a@b.com"
               , hashed_password := get_password_hash "pw", is_active := true } ]
  , refresh_tokens := [], blocklist := [], next_row_id := 0 }

/-- Fixture: store with one active user and one active refresh row r1. -/
def dbRot : DB :=
  { users := [ { id := 1, email := "a@b.com"
               , hashed_password := get_password_hash "pw", is_active := true } ]
  , refresh_tokens := [ { id := 1, user_id := 1, jti := "r1", expires_at := 1000
                        , created_at := 0, revoked := false, revoked_at := none
                        , device_info := none, ip_address := none } ]
  , blocklist := [], next_row_id := 2 }

/-- Fixture: claims of the refresh token matching row r1 of dbRot. -/
def cRot : Claims :=
  { sub := some "a@b.com", jti := some "r1", exp := some 1000, typ := some "refresh" }

/-- Fixture: durable store after rotating r1 in dbRot at time 10. -/
def dbRotAfter : DB :=
  { users := [ { id := 1, email := "a@b.com", hashed_password := "bcrypt$pw"
               , is_active := true } ]
  , refresh_tokens :=
      [ { id := 1, user_id := 1, jti := "r1", expires_at := 1000, created_at := 0
        , revoked := true, revoked_at := some 10, device_info := none
        , ip_address := none }
      , { id := 2, user_id := 1, jti := "u", expires_at := 2592010
        , created_at := 10, revoked := false, revoked_at := none
        , device_info := none, ip_address := none } ]
  , blocklist := [ { jti := "r1", token_type := "refresh", user_id := some 1
                   , expires_at := 1000, revoked_at := 10
                   , reason := some "Token rotation" } ]
  , next_row_id := 3 }

/-- Fixture: store whose single refresh row r1 expired at 5 and is not
revoked. -/
def dbC7 : DB :=
  { users := [ { id := 1, email := "a@b.com"
               , hashed_password := get_password_hash "pw", is_active := true } ]
  , refresh_tokens := [ { id := 1, user_id := 1, jti := "r1", expires_at := 5
                        , created_at := 0, revoked := false, revoked_at := none
                        , device_info := none, ip_address := none } ]
  , blocklist := [], next_row_id := 2 }

/-- Fixture: the (expired) refresh token matching dbC7's row. -/
def rtExpiredC7 : Token :=
  .signed { sub := some "a@b.com", jti := some "r1", exp := some 5
          , typ := some "refresh" }

/-- Fixture: access-token claims with jti a1 for the user of dbRot. -/
def cAccC7 : Claims :=
  { sub := some "a@b.com", jti := some "a1", exp := some 900
  , typ := some "access" }

/-- How one operation may transform the refresh_tokens table while the
name source advances from gen to gen2: every resulting row is an original
row kept or revoked-with-timestamp, or a fresh row whose jti was
generated in [gen, gen2) and that satisfies the revoked-at discipline. -/
def RowsEvolve (gen : Nat) (old : List RefreshTokenRow) (gen2 : Nat)
    (l2 : List RefreshTokenRow) : Prop :=
  ∀ r2 ∈ l2,
    (∃ r ∈ old, r2 = r ∨
      ∃ t, r2 = { r with revoked := true, revoked_at := some t }) ∨
    ((r2.revoked = true → r2.revoked_at ≠ none) ∧
      ∃ g, gen ≤ g ∧ g < gen2 ∧ r2.jti = freshJti g)

/-- Fixture: state with one revoked row (jti r1, revoked_at set), an
active row (jti r1 is fully revoked since no other row carries it), and
name source at 5. -/
def sC9 : SysState :=
  { db := { users := [ { id := 1, email := "a@b.com"
                       , hashed_password := get_password_hash "pw"
                       , is_active := true } ]
          , refresh_tokens := [ { id := 1, user_id := 1, jti := "r1"
                                , expires_at := 1000, created_at := 0
                                , revoked := true, revoked_at := some 3
                                , device_info := none, ip_address := none } ]
          , blocklist := [], next_row_id := 2 }
  , counters := .ok []
  , gen := 5 }

/-- C6: check_token_blocklist(jti) returns true iff a blocklist row with
that jti exists whose mirrored expiry is still in the future; hence an
entry past its expiry never blocks, even before garbage collection
deletes it. -/
theorem C6_is_blocked_iff (now : Nat) (db : DB) (j : String) :
    check_token_blocklist now db j = true ↔
      ∃ e ∈ db.blocklist, e.jti = j ∧ now < e.expires_at := by
  simp only [check_token_blocklist, List.any_eq_true, Bool.and_eq_true, beq_iff_eq,
    decide_eq_true_eq]

/-- C4 counterexample: the validator's failure responses are
distinguishable — at concrete inputs a revoked token and an
inactive-subject token each produce a response different from the
malformed-token response, refuting indistinguishability. -/
theorem C4_counterexample :
    get_current_userResp 10 dbC4 tokRevokedC4 ≠ get_current_userResp 10 dbC4 Token.malformed ∧
    get_current_userResp 10 dbC4 tokInactiveC4 ≠ get_current_userResp 10 dbC4 Token.malformed ∧
    get_current_userResp 10 dbC4 tokRevokedC4 ≠ get_current_userResp 10 dbC4 tokInactiveC4 := by
  decide

/-- C4 amended: malformed, wrong-type, expired, missing-subject and
unknown-subject failures all surface as the one credentials response,
but a revoked token carries a distinct 401 detail and an inactive
subject surfaces as 403, so those two sub-checks are distinguishable to
the caller. -/
theorem C4_amended_uniformity :
    (∀ now db t, get_current_userResp now db t =
      (get_current_userE now db t).mapError errResponse) ∧
    errResponse .malformed = credResp ∧
    errResponse .wrongType = credResp ∧
    errResponse .expired = credResp ∧
    errResponse .missingSub = credResp ∧
    errResponse .unknownSubject = credResp ∧
    errResponse .revokedToken ≠ credResp ∧
    errResponse .inactiveSubject ≠ credResp ∧
    (errResponse .revokedToken).status = 401 ∧
    (errResponse .inactiveSubject).status = 403 := by
  exact ⟨fun _ _ _ => rfl, by decide, by decide, by decide, by decide, by decide,
    by decide, by decide, by decide, by decide⟩

/-- C5 counterexample: on a token that is both expired and wrong-typed,
the code rejects it as expired while the spec's claimed check order
(signature, type, expiry, registry, subject) would reject it as
wrong-type, so the claimed order is not the implemented one. -/
theorem C5_counterexample :
    get_current_userE 10 dbEmpty tokExpiredWrongType = .error .expired ∧
    spec_order_validate 10 dbEmpty tokExpiredWrongType = .error .wrongType ∧
    AuthError.expired ≠ AuthError.wrongType := by
  decide

/-- C5 amended: the implemented order is signature, expiry, type,
subject-present, registry, subject resolution, active flag — each
rejection reason holds exactly when its check is the earliest failing
one in that order. -/
theorem C5_actual_check_order (now : Nat) (db : DB) (c : Claims) :
    (get_current_userE now db Token.malformed = .error .malformed) ∧
    (get_current_userE now db (.signed c) = .error .expired ↔
      tokExpired now c = true) ∧
    (get_current_userE now db (.signed c) = .error .wrongType ↔
      (tokExpired now c = false ∧ c.typ ≠ some "access")) ∧
    (get_current_userE now db (.signed c) = .error .missingSub ↔
      (tokExpired now c = false ∧ c.typ = some "access" ∧ c.sub = none)) ∧
    (get_current_userE now db (.signed c) = .error .revokedToken ↔
      (tokExpired now c = false ∧ c.typ = some "access" ∧ (∃ em, c.sub = some em) ∧
        truthyStr c.jti = true ∧
        check_token_blocklist now db (c.jti.getD "") = true)) ∧
    (get_current_userE now db (.signed c) = .error .unknownSubject ↔
      (tokExpired now c = false ∧ c.typ = some "access" ∧
        ¬(truthyStr c.jti = true ∧
          check_token_blocklist now db (c.jti.getD "") = true) ∧
        (∃ em, c.sub = some em ∧ findUserByEmail db em = none))) ∧
    (get_current_userE now db (.signed c) = .error .inactiveSubject ↔
      (tokExpired now c = false ∧ c.typ = some "access" ∧
        ¬(truthyStr c.jti = true ∧
          check_token_blocklist now db (c.jti.getD "") = true) ∧
        (∃ em u, c.sub = some em ∧ findUserByEmail db em = some u ∧
          u.is_active = false))) := by
  refine ⟨rfl, ?_, ?_, ?_, ?_, ?_, ?_⟩ <;>
    cases hsub : c.sub <;>
      simp only [get_current_userE, hsub] <;>
        (repeat' split) <;> simp_all

/-- C2 evidence: revoke_all marks the user's row revoked (with
revoked_at) and returns count 1, but mirrors nothing into the Registry —
its second query filters on revoked = false after the bulk UPDATE has
already set revoked = true, so the blocklist stays empty. -/
theorem C2_no_mirroring_at_failing_input :
    (revoke_all_user_tokens 10 dbC2 7).2 = 1 ∧
    ((revoke_all_user_tokens 10 dbC2 7).1.refresh_tokens.all
      (fun r => r.revoked && r.revoked_at == some 10)) = true ∧
    (revoke_all_user_tokens 10 dbC2 7).1.blocklist = [] := by
  decide

/-- C8: with the counter store absent or raising, the Brute-Force Guard
reports no lockout and full remaining allowance, reset and TTL queries
degrade to no-ops, the Request Rate Limiter allows the request, and the
login endpoint can never answer locked-out. -/
theorem C8_fail_open (cfg : Settings) (now : Nat) (ident : String)
    (req : ClientRequest) (db : DB) (gen : Nat)
    (ip username password : String) (ua : Option String) :
    record_failed_login cfg now .failing ident = ((0, false), .failing) ∧
    record_failed_login cfg now .absent ident = ((0, false), .absent) ∧
    (check_rate_limit cfg now .failing req).1 = (true, none) ∧
    (check_rate_limit cfg now .absent req).1 = (true, none) ∧
    get_remaining_attempts cfg now .failing ident = cfg.brute_force_max_attempts ∧
    get_remaining_attempts cfg now .absent ident = cfg.brute_force_max_attempts ∧
    get_lockout_ttl now .failing ident = none ∧
    get_lockout_ttl now .absent ident = none ∧
    reset_failed_logins .failing ident = .failing ∧
    reset_failed_logins .absent ident = .absent ∧
    (login cfg now db .failing gen ip username password ua).1.isLockedOut = false ∧
    (login cfg now db .absent gen ip username password ua).1.isLockedOut = false := by
  refine ⟨rfl, rfl, ?_, ?_, rfl, rfl, rfl, rfl, rfl, rfl, ?_, ?_⟩
  · simp only [check_rate_limit]; split <;> rfl
  · simp only [check_rate_limit]; split <;> rfl
  · simp only [login, record_failed_login]
    cases hf : findUserByEmail db (username)
    · simp [hf, LoginResult.isLockedOut]
    · simp only [hf]
      split_ifs <;> simp_all [LoginResult.isLockedOut]
  · simp only [login, record_failed_login]
    cases hf : findUserByEmail db (username)
    · simp [hf, LoginResult.isLockedOut]
    · simp only [hf]
      split_ifs <;> simp_all [LoginResult.isLockedOut]

/-- C10: a signed token with type access, an unexpired exp, a resolvable
active subject and no jti claim is accepted with the blocklist never
consulted, so it can never be rejected as revoked; and every token the
issuer mints carries a jti. -/
theorem C10_no_jti_skips_blocklist :
    (∀ (now : Nat) (db : DB) (c : Claims) (em : String) (u : UserRow),
      c.jti = none → c.typ = some "access" → tokExpired now c = false →
      c.sub = some em → findUserByEmail db em = some u → u.is_active = true →
      get_current_userE now db (.signed c) = .ok u) ∧
    (∀ (cfg : Settings) (now : Nat) (sub : String) (gen : Nat),
      (create_access_token cfg now sub gen).1 =
        Token.signed { sub := some sub, jti := some (freshJti gen)
                     , exp := some (now + cfg.access_token_expire_minutes * 60)
                     , typ := some "access" }) := by
  constructor
  · intro now db c em u hj ht he hs hf ha
    simp [get_current_userE, hj, ht, he, hs, hf, ha, truthyStr]
  · intro cfg now sub gen
    rfl

/-- C10 witness: the jti-less token is accepted at a concrete input. -/
theorem C10_witness :
    get_current_userE 10 dbC4 (.signed claimsNoJti) =
      .ok { id := 1, email := "a@b.com", hashed_password := "h", is_active := true } :=
  C10_no_jti_skips_blocklist.1 10 dbC4 claimsNoJti "a@b.com"
    { id := 1, email := "a@b.com", hashed_password := "h", is_active := true }
    rfl rfl (by decide) rfl (by decide) rfl

/-- Reading back the single fresh guard entry. -/
theorem redisGet_single (now : Nat) (k : String) (v e : Nat) (h : now < e) :
    redisGet now [{ key := k, value := v, expires_at := e }] k = some v := by
  simp [redisGet, List.find?, h]

/-- One login attempt with a wrong password leaves the guard store at the
SETEX of count+1, whether or not the attempt was rejected as locked
out. -/
theorem login_fail_store (cfg : Settings) (now : Nat) (db : DB) (gen : Nat)
    (ip username pw : String) (ua : Option String) (st : List RedisEntry)
    (usr : UserRow)
    (hf : findUserByEmail db username = some usr)
    (hpw : verify_password pw usr.hashed_password = false) :
    (login cfg now db (.ok st) gen ip username pw ua).2.2.1 =
      .ok (redisSetex now st (bruteKey ip username)
        (cfg.brute_force_lockout_minutes * 60)
        ((redisGet now st (bruteKey ip username)).getD 0 + 1)) := by
  simp only [login, record_failed_login, bruteKey]
  split_ifs <;> simp [hf, hpw]

/-- Guard store after k consecutive same-time wrong-password attempts. -/
theorem loginAttemptsCS_closed (cfg : Settings) (now : Nat) (db : DB)
    (gen : Nat) (ip username pw : String) (ua : Option String) (usr : UserRow)
    (hf : findUserByEmail db username = some usr)
    (hpw : verify_password pw usr.hashed_password = false)
    (hL : 0 < cfg.brute_force_lockout_minutes) :
    ∀ k, loginAttemptsCS cfg now db gen ip username pw ua k (.ok []) =
      .ok (guardStateK (bruteKey ip username) now
        (cfg.brute_force_lockout_minutes * 60) k) := by
  intro k
  induction k with
  | zero => rfl
  | succ k ih =>
    have hstep := login_fail_store cfg now db gen ip username pw ua
      (guardStateK (bruteKey ip username) now
        (cfg.brute_force_lockout_minutes * 60) k) usr hf hpw
    rw [loginAttemptsCS, ih, hstep]
    cases k with
    | zero => simp [guardStateK, redisGet, redisSetex]
    | succ m =>
      have hlive : now < now + cfg.brute_force_lockout_minutes * 60 := by
        have : 0 < cfg.brute_force_lockout_minutes * 60 := by positivity
        omega
      simp [guardStateK, redisGet_single _ _ _ _ hlive, redisSetex]

/-- C1 counterexample: with max_attempts = 5, after only 4 consecutive
wrong-password attempts the next attempt with the correct password is
already rejected as locked-out (and remaining_attempts reports 1, not 0,
immediately prior), because login records every attempt before checking
credentials; the claim promised success for every k < 5 failures. -/
theorem C1_counterexample :
    (login cfgDefault 0 dbLogin
      (loginAttemptsCS cfgDefault 0 dbLogin 0 "1.2.3.4" "a@b.com" "wrong" none 4 (.ok []))
      0 "1.2.3.4" "a@b.com" "pw" none).1 = .lockedOut 16 ∧
    get_remaining_attempts cfgDefault 0
      (loginAttemptsCS cfgDefault 0 dbLogin 0 "1.2.3.4" "a@b.com" "wrong" none 4 (.ok []))
      "1.2.3.4:a@b.com" = 1 := by
  decide

/-- C1 amended: because the guard counts every attempt before credentials
are checked, the lockout fires one attempt early: after k consecutive
failures a correct-credential attempt succeeds only while k + 1 <
max_attempts; after exactly max_attempts - 1 consecutive failures the
next attempt, even with correct credentials, is rejected as locked-out;
and remaining_attempts reports 1 (not 0) immediately prior to that
rejection. -/
theorem C1_lockout_one_early (cfg : Settings) (now : Nat) (db : DB)
    (gen : Nat) (ip username correct wrong : String) (ua : Option String)
    (usr : UserRow)
    (hf : findUserByEmail db username = some usr)
    (hok : verify_password correct usr.hashed_password = true)
    (hbad : verify_password wrong usr.hashed_password = false)
    (hL : 0 < cfg.brute_force_lockout_minutes)
    (hM : 1 ≤ cfg.brute_force_max_attempts) :
    (∀ k, k + 1 < cfg.brute_force_max_attempts →
      (login cfg now db
        (loginAttemptsCS cfg now db gen ip username wrong ua k (.ok []))
        gen ip username correct ua).1.isSuccess = true) ∧
    (login cfg now db
      (loginAttemptsCS cfg now db gen ip username wrong ua
        (cfg.brute_force_max_attempts - 1) (.ok []))
      gen ip username correct ua).1.isLockedOut = true ∧
    get_remaining_attempts cfg now
      (loginAttemptsCS cfg now db gen ip username wrong ua
        (cfg.brute_force_max_attempts - 1) (.ok []))
      (ip ++ ":" ++ username) = 1 := by
  have hclosed := loginAttemptsCS_closed cfg now db gen ip username wrong ua usr hf hbad hL
  have hlive : now < now + cfg.brute_force_lockout_minutes * 60 := by
    have : 0 < cfg.brute_force_lockout_minutes * 60 := by positivity
    omega
  refine ⟨?_, ?_, ?_⟩
  · intro k hk
    rw [hclosed k]
    cases k with
    | zero =>
      simp only [guardStateK, login, record_failed_login]
      have hnl : ¬ cfg.brute_force_max_attempts ≤ 0 + 1 := by omega
      simp [redisGet, hnl, hf, hok, LoginResult.isSuccess]
    | succ m =>
      simp only [guardStateK, login, record_failed_login, bruteKey]
      have hget := redisGet_single now (bruteKey ip username) (m + 1)
        (now + cfg.brute_force_lockout_minutes * 60) hlive
      have hnl : ¬ cfg.brute_force_max_attempts ≤ m + 1 + 1 := by omega
      simp [bruteKey] at hget
      simp [hget, hnl, hf, hok, LoginResult.isSuccess]
  · rw [hclosed]
    cases hMsplit : cfg.brute_force_max_attempts - 1 with
    | zero =>
      have h1 : cfg.brute_force_max_attempts = 1 := by omega
      simp only [guardStateK, login, record_failed_login]
      simp [redisGet, h1, LoginResult.isLockedOut]
    | succ m =>
      have hle : cfg.brute_force_max_attempts ≤ m + 1 + 1 := by omega
      simp only [guardStateK, login, record_failed_login, bruteKey]
      have hget := redisGet_single now (bruteKey ip username) (m + 1)
        (now + cfg.brute_force_lockout_minutes * 60) hlive
      simp [bruteKey] at hget
      simp [hget, hle, LoginResult.isLockedOut]
  · rw [hclosed]
    cases hMsplit : cfg.brute_force_max_attempts - 1 with
    | zero =>
      have h1 : cfg.brute_force_max_attempts = 1 := by omega
      simp [guardStateK, get_remaining_attempts, redisGet, h1]
    | succ m =>
      have hMm : cfg.brute_force_max_attempts = m + 2 := by omega
      have hget := redisGet_single now (bruteKey ip username) (m + 1)
        (now + cfg.brute_force_lockout_minutes * 60) hlive
      simp only [guardStateK, get_remaining_attempts, bruteKey] at *
      simp [hget, hMm]

/-- C1 witness: the amended lockout behavior at the default settings,
instantiated concretely — two failures then a correct login succeeds
(2 + 1 < 5), and after four failures the correct login is locked out. -/
theorem C1_witness :
    (login cfgDefault 0 dbLogin
      (loginAttemptsCS cfgDefault 0 dbLogin 0 "1.2.3.4" "a@b.com" "wrong" none 2 (.ok []))
      0 "1.2.3.4" "a@b.com" "pw" none).1.isSuccess = true ∧
    (login cfgDefault 0 dbLogin
      (loginAttemptsCS cfgDefault 0 dbLogin 0 "1.2.3.4" "a@b.com" "wrong" none 4 (.ok []))
      0 "1.2.3.4" "a@b.com" "pw" none).1.isLockedOut = true ∧
    get_remaining_attempts cfgDefault 0
      (loginAttemptsCS cfgDefault 0 dbLogin 0 "1.2.3.4" "a@b.com" "wrong" none 4 (.ok []))
      "1.2.3.4:a@b.com" = 1 := by
  have h := C1_lockout_one_early cfgDefault 0 dbLogin 0 "1.2.3.4" "a@b.com"
    "pw" "wrong" none
    { id := 1, email := "a@b.com", hashed_password := get_password_hash "pw"
    , is_active := true }
    (by decide) (by decide) (by decide) (by decide) (by decide)
  exact ⟨h.1 2 (by decide), h.2.1, h.2.2⟩

/-- Blocklist inserts leave the refresh_tokens table unchanged. -/
theorem block_refresh_token_rows (now : Nat) (db : DB) (j : String)
    (e : Nat) (u : Option Nat) (rsn : Option String) :
    (block_refresh_token now db j e u rsn).refresh_tokens = db.refresh_tokens := by
  unfold block_refresh_token
  split <;> rfl

/-- Blocklist inserts leave the users table unchanged. -/
theorem block_refresh_token_users (now : Nat) (db : DB) (j : String)
    (e : Nat) (u : Option Nat) (rsn : Option String) :
    (block_refresh_token now db j e u rsn).users = db.users := by
  unfold block_refresh_token
  split <;> rfl

/-- After block_refresh_token, a blocklist row with the jti exists. -/
theorem block_refresh_token_hit (now : Nat) (db : DB) (j : String)
    (e : Nat) (u : Option Nat) (rsn : Option String) :
    ∃ b ∈ (block_refresh_token now db j e u rsn).blocklist, b.jti = j := by
  unfold block_refresh_token
  split
  · next h =>
    obtain ⟨b, hb, hbj⟩ := List.any_eq_true.mp h
    exact ⟨b, hb, by simpa using hbj⟩
  · exact ⟨_, List.mem_append_right _ (List.mem_singleton.mpr rfl), rfl⟩

/-- Existing blocklist rows survive block_refresh_token. -/
theorem block_refresh_token_mono (now : Nat) (db : DB) (j : String)
    (e : Nat) (u : Option Nat) (rsn : Option String) (b : BlocklistRow)
    (hb : b ∈ db.blocklist) :
    b ∈ (block_refresh_token now db j e u rsn).blocklist := by
  unfold block_refresh_token
  split
  · exact hb
  · exact List.mem_append_left _ hb

/-- Blocklist inserts for access tokens leave refresh_tokens unchanged. -/
theorem block_access_token_rows (now : Nat) (db : DB) (j : String)
    (e : Nat) (u : Option Nat) (rsn : Option String) :
    (block_access_token now db j e u rsn).refresh_tokens = db.refresh_tokens := by
  unfold block_access_token
  split <;> rfl

/-- Blocklist inserts for access tokens leave users unchanged. -/
theorem block_access_token_users (now : Nat) (db : DB) (j : String)
    (e : Nat) (u : Option Nat) (rsn : Option String) :
    (block_access_token now db j e u rsn).users = db.users := by
  unfold block_access_token
  split <;> rfl

/-- After block_access_token, a blocklist row with the jti exists. -/
theorem block_access_token_hit (now : Nat) (db : DB) (j : String)
    (e : Nat) (u : Option Nat) (rsn : Option String) :
    ∃ b ∈ (block_access_token now db j e u rsn).blocklist, b.jti = j := by
  unfold block_access_token
  split
  · next h =>
    obtain ⟨b, hb, hbj⟩ := List.any_eq_true.mp h
    exact ⟨b, hb, by simpa using hbj⟩
  · exact ⟨_, List.mem_append_right _ (List.mem_singleton.mpr rfl), rfl⟩

/-- Every row of revokeFirst is an original row, either untouched or
revoked-with-timestamp. -/
theorem mem_revokeFirst (now : Nat) (j : String) :
    ∀ (l : List RefreshTokenRow), ∀ r' ∈ revokeFirst now l j,
      ∃ r ∈ l, r' = r ∨ r' = { r with revoked := true, revoked_at := some now } := by
  intro l
  induction l with
  | nil => intro r' h; simp [revokeFirst] at h
  | cons r rs ih =>
    intro r' h
    rw [revokeFirst] at h
    split at h
    · rcases List.mem_cons.mp h with h1 | h1
      · exact ⟨r, List.mem_cons_self .., Or.inr h1⟩
      · exact ⟨r', List.mem_cons_of_mem _ h1, Or.inl rfl⟩
    · rcases List.mem_cons.mp h with h1 | h1
      · exact ⟨r, List.mem_cons_self .., Or.inl h1⟩
      · obtain ⟨r0, hr0, hr0'⟩ := ih r' h1
        exact ⟨r0, List.mem_cons_of_mem _ hr0, hr0'⟩

/-- With pairwise-distinct jtis (the unique index on jti), after
revokeFirst every row carrying the jti is revoked. -/
theorem revokeFirst_kills (now : Nat) (j : String) :
    ∀ (l : List RefreshTokenRow),
      l.Pairwise (fun a b => a.jti ≠ b.jti) →
      ∀ r' ∈ revokeFirst now l j, r'.jti = j → r'.revoked = true := by
  intro l
  induction l with
  | nil => intro _ r' h; simp [revokeFirst] at h
  | cons r rs ih =>
    intro hnd r' h hj
    have hhead := (List.pairwise_cons.mp hnd).1
    have htail := (List.pairwise_cons.mp hnd).2
    rw [revokeFirst] at h
    split at h
    · next hcond =>
      have hrj : r.jti = j := by
        have := (Bool.and_eq_true _ _).mp hcond
        exact beq_iff_eq.mp this.1
      rcases List.mem_cons.mp h with h1 | h1
      · rw [h1]
      · exact absurd (hj.trans hrj.symm) (hhead r' h1).symm
    · next hcond =>
      rcases List.mem_cons.mp h with h1 | h1
      · subst h1
        by_contra hrev
        exact hcond (by simp [hj, Bool.not_eq_true] at hrev ⊢; simp [hrev])
      · exact ih htail r' h1 hj

/-- If some row carries the jti, after revokeFirst a revoked row carries
it. -/
theorem revokeFirst_revokes (now : Nat) (j : String) :
    ∀ (l : List RefreshTokenRow), (∃ r ∈ l, r.jti = j) →
      ∃ r' ∈ revokeFirst now l j, r'.jti = j ∧ r'.revoked = true := by
  intro l
  induction l with
  | nil => rintro ⟨r, hr, _⟩; simp at hr
  | cons r rs ih =>
    rintro ⟨r0, hr0, hr0j⟩
    rw [revokeFirst]
    split
    · next hcond =>
      have hrj : r.jti = j := by
        have := (Bool.and_eq_true _ _).mp hcond
        exact beq_iff_eq.mp this.1
      exact ⟨_, List.mem_cons_self .., hrj, rfl⟩
    · next hcond =>
      rcases List.mem_cons.mp hr0 with h1 | h1
      · subst h1
        refine ⟨r0, List.mem_cons_self .., hr0j, ?_⟩
        by_contra hrev
        exact hcond (by simp [hr0j, Bool.not_eq_true] at hrev ⊢; simp [hrev])
      · obtain ⟨r', hr', hj', hrev'⟩ := ih ⟨r0, h1, hr0j⟩
        exact ⟨r', List.mem_cons_of_mem _ hr', hj', hrev'⟩

/-- Inversion of a successful refresh-token verification: the token is
unexpired and refresh-typed with truthy jti and sub, and the returned
row is the first non-revoked row carrying the token's jti. -/
theorem verify_ok_facts (now : Nat) (db : DB) (c : Claims) (u : UserRow)
    (row : RefreshTokenRow)
    (h : verify_refresh_token now db (.signed c) = .ok (u, row)) :
    tokExpired now c = false ∧ c.typ = some "refresh" ∧
    truthyStr c.jti = true ∧ truthyStr c.sub = true ∧
    db.refresh_tokens.find? (fun r => r.jti == c.jti.getD "" && !r.revoked) = some row ∧
    row ∈ db.refresh_tokens ∧ row.jti = c.jti.getD "" ∧ row.revoked = false := by
  simp only [verify_refresh_token] at h
  split at h
  · exact absurd h (by simp)
  next hexp =>
    split at h
    · exact absurd h (by simp)
    next htyp =>
      split at h
      · exact absurd h (by simp)
      next hpay =>
        split at h
        · exact absurd h (by simp)
        next row' hfind =>
          split at h
          · exact absurd h (by simp)
          next hvalid =>
            split at h
            · exact absurd h (by simp)
            next u' huser =>
              split at h
              · exact absurd h (by simp)
              next hact =>
                have hpair : u' = u ∧ row' = row := by
                  simpa using h
                obtain ⟨hu, hrow⟩ := hpair
                have hfind2 : db.refresh_tokens.find?
                    (fun r => r.jti == c.jti.getD "" && !r.revoked) = some row := by
                  rw [← hrow]; exact hfind
                have hp := List.find?_some hfind2
                have hmem := List.mem_of_find?_eq_some hfind2
                have hpj : row.jti = c.jti.getD "" :=
                  beq_iff_eq.mp ((Bool.and_eq_true _ _).mp hp).1
                have hprev : row.revoked = false := by
                  have := ((Bool.and_eq_true _ _).mp hp).2
                  simpa using this
                have hexp' : tokExpired now c = false := by
                  simpa using hexp
                have htyp' : c.typ = some "refresh" := by
                  by_contra hne
                  exact htyp (by simpa using hne)
                have hand : (truthyStr c.jti && truthyStr c.sub) = true := by
                  revert hpay
                  cases h1 : (truthyStr c.jti && truthyStr c.sub) <;> simp
                have hpay' := (Bool.and_eq_true _ _).mp hand
                exact ⟨hexp', htyp', hpay'.1, hpay'.2, hfind2, hmem, hpj, hprev⟩

/-- C3: rotation is single-use and revoke-before-issue.  Once
refresh_tokens succeeds on R, any later verification or rotation of R is
rejected as revoked-or-missing (and can never succeed at any time); and
in the intermediate state committed before the new tokens are minted,
R's row is already revoked, its jti is already mirrored into the
Registry, and the new refresh token does not exist yet.  Hypotheses:
jtis are pairwise distinct (the unique index) and the next generated
unique-id is genuinely fresh (uuid4 non-collision). -/
theorem C3_rotation_single_use (cfg : Settings) (now : Nat) (db : DB)
    (gen : Nat) (c : Claims) (ip ua : Option String)
    (acc nrt : Token) (db3 : DB) (g2 : Nat)
    (hnd : db.refresh_tokens.Pairwise (fun a b => a.jti ≠ b.jti))
    (hfresh : ∀ r ∈ db.refresh_tokens, r.jti ≠ freshJti (gen + 1))
    (hok : refresh_tokens_op cfg now db gen (.signed c) ip ua =
      .ok (acc, nrt, db3, g2)) :
    (∀ now2, tokExpired now2 c = false →
      verify_refresh_token now2 db3 (.signed c) = .error .revokedOrMissing) ∧
    (∀ now2 pr, verify_refresh_token now2 db3 (.signed c) ≠ .ok pr) ∧
    refresh_tokens_op cfg now db3 g2 (.signed c) ip ua =
      .error .revokedOrMissing ∧
    (∃ user old, verify_refresh_token now db (.signed c) = .ok (user, old) ∧
      c.jti = some old.jti ∧
      (∀ r ∈ (rotate_revoke_phase now db user old).refresh_tokens,
        r.jti = old.jti → r.revoked = true) ∧
      (∃ b ∈ (rotate_revoke_phase now db user old).blocklist, b.jti = old.jti) ∧
      (∀ r ∈ (rotate_revoke_phase now db user old).refresh_tokens,
        r.jti ≠ freshJti (gen + 1)) ∧
      db3 = (create_refresh_token cfg now (rotate_revoke_phase now db user old)
        user ua ip (gen + 1)).2.2.1) := by
  cases hv : verify_refresh_token now db (.signed c) with
  | error e =>
    rw [refresh_tokens_op, hv] at hok
    exact absurd hok (by simp)
  | ok pr =>
    obtain ⟨user, old⟩ := pr
    rw [refresh_tokens_op, hv] at hok
    simp only [create_access_token, Except.ok.injEq, Prod.mk.injEq] at hok
    obtain ⟨hacc, hnrt, hdb3, hg2⟩ := hok
    obtain ⟨hexp, htyp, hjt, hst, hfind, hmem, hpj, hprev⟩ :=
      verify_ok_facts now db c user old hv
    have hcj : c.jti = some old.jti := by
      cases hcjv : c.jti with
      | none => rw [hcjv] at hjt; simp [truthyStr] at hjt
      | some s =>
        rw [hcjv] at hpj
        simp only [Option.getD_some] at hpj
        rw [hpj]
    have hdb2rows : (rotate_revoke_phase now db user old).refresh_tokens =
        revokeFirst now db.refresh_tokens old.jti := by
      rw [rotate_revoke_phase, block_refresh_token_rows]
      rfl
    have hkilled : ∀ r ∈ (rotate_revoke_phase now db user old).refresh_tokens,
        r.jti = old.jti → r.revoked = true := by
      rw [hdb2rows]
      exact revokeFirst_kills now old.jti db.refresh_tokens hnd
    have hdb2fresh : ∀ r ∈ (rotate_revoke_phase now db user old).refresh_tokens,
        r.jti ≠ freshJti (gen + 1) := by
      rw [hdb2rows]
      intro r hr
      obtain ⟨r0, hr0, hcase⟩ := mem_revokeFirst now old.jti db.refresh_tokens r hr
      rcases hcase with h1 | h1 <;> rw [h1] <;> exact hfresh r0 hr0
    have hjeq : c.jti.getD "" = old.jti := hpj.symm
    have hdb3rows : db3.refresh_tokens =
        (rotate_revoke_phase now db user old).refresh_tokens ++
          [(create_refresh_token cfg now (rotate_revoke_phase now db user old)
            user ua ip (gen + 1)).2.1] := by
      rw [← hdb3]
      rfl
    have hnewjti : (create_refresh_token cfg now
        (rotate_revoke_phase now db user old) user ua ip (gen + 1)).2.1.jti =
          freshJti (gen + 1) := rfl
    have hfindnone : db3.refresh_tokens.find?
        (fun r => r.jti == c.jti.getD "" && !r.revoked) = none := by
      rw [List.find?_eq_none]
      intro r hr
      rw [hdb3rows] at hr
      rcases List.mem_append.mp hr with h1 | h1
      · intro hp
        obtain ⟨hb1, hb2⟩ := (Bool.and_eq_true _ _).mp hp
        have hrj : r.jti = old.jti := by
          rw [← hjeq]; exact beq_iff_eq.mp hb1
        have := hkilled r h1 hrj
        rw [this] at hb2
        simp at hb2
      · have hr1 := List.mem_singleton.mp h1
        intro hp
        obtain ⟨hb1, _⟩ := (Bool.and_eq_true _ _).mp hp
        have : r.jti = old.jti := by
          rw [← hjeq]; exact beq_iff_eq.mp hb1
        rw [hr1, hnewjti] at this
        exact hfresh old hmem (hpj ▸ this.symm) |>.elim
    have hreject : ∀ now2, tokExpired now2 c = false →
        verify_refresh_token now2 db3 (.signed c) = .error .revokedOrMissing := by
      intro now2 hexp2
      simp [verify_refresh_token, hexp2, htyp, hjt, hst, hfindnone]
    refine ⟨hreject, ?_, ?_, user, old, rfl, hcj, hkilled,
      block_refresh_token_hit now (revokeTokenRow now db old.jti) old.jti
        old.expires_at (some user.id) (some "Token rotation"),
      hdb2fresh, hdb3.symm⟩
    · intro now2 pr2
      cases hexp2 : tokExpired now2 c with
      | true => simp [verify_refresh_token, hexp2]
      | false => rw [hreject now2 hexp2]; simp
    · rw [refresh_tokens_op, hreject now hexp]

/-- C3 witness: the single-use rejection instantiated on a concrete
successful rotation. -/
theorem C3_witness :
    verify_refresh_token 10 dbRotAfter (.signed cRot) = .error .revokedOrMissing :=
  (C3_rotation_single_use cfgDefault 10 dbRot 0 cRot none none
    (.signed { sub := some "a@b.com", jti := some "", exp := some 910
             , typ := some "access" })
    (.signed { sub := some "a@b.com", jti := some "u", exp := some 2592010
             , typ := some "refresh" })
    dbRotAfter 2 (by decide) (by decide) (by decide)).1 10 (by decide)

/-- Existing blocklist rows survive block_access_token. -/
theorem block_access_token_mono (now : Nat) (db : DB) (j : String)
    (e : Nat) (u : Option Nat) (rsn : Option String) (b : BlocklistRow)
    (hb : b ∈ db.blocklist) :
    b ∈ (block_access_token now db j e u rsn).blocklist := by
  unfold block_access_token
  split
  · exact hb
  · exact List.mem_append_left _ hb

/-- block_access_token is the identity once a row with the jti exists. -/
theorem block_access_token_noop (now : Nat) (db : DB) (j : String)
    (e : Nat) (u : Option Nat) (rsn : Option String)
    (h : ∃ b ∈ db.blocklist, b.jti = j) :
    block_access_token now db j e u rsn = db := by
  unfold block_access_token
  obtain ⟨b, hb, hbj⟩ := h
  rw [if_pos]
  exact List.any_eq_true.mpr ⟨b, hb, by simp [hbj]⟩

/-- The access half of logout leaves the refresh_tokens table
unchanged. -/
theorem logout_access_phase_rows (now : Nat) (db : DB) (a : Option Token) :
    (logout_access_phase now db a).refresh_tokens = db.refresh_tokens := by
  unfold logout_access_phase
  cases a with
  | none => rfl
  | some t =>
    cases t with
    | malformed => rfl
    | signed c =>
      simp only [jwtDecodeNoExp]
      split
      · exact block_access_token_rows ..
      · rfl

/-- The access half of logout leaves the users table unchanged. -/
theorem logout_access_phase_users (now : Nat) (db : DB) (a : Option Token) :
    (logout_access_phase now db a).users = db.users := by
  unfold logout_access_phase
  cases a with
  | none => rfl
  | some t =>
    cases t with
    | malformed => rfl
    | signed c =>
      simp only [jwtDecodeNoExp]
      split
      · exact block_access_token_users ..
      · rfl

/-- Blocklist rows survive the access half of logout. -/
theorem logout_access_phase_bl_mono (now : Nat) (db : DB) (a : Option Token)
    (b : BlocklistRow) (hb : b ∈ db.blocklist) :
    b ∈ (logout_access_phase now db a).blocklist := by
  unfold logout_access_phase
  cases a with
  | none => exact hb
  | some t =>
    cases t with
    | malformed => exact hb
    | signed c =>
      simp only [jwtDecodeNoExp]
      split
      · exact block_access_token_mono _ _ _ _ _ _ _ hb
      · exact hb

/-- Blocklist rows survive the refresh half of logout. -/
theorem logout_refresh_phase_bl_mono (now : Nat) (db : DB) (r : Option Token)
    (b : BlocklistRow) (hb : b ∈ db.blocklist) :
    b ∈ (logout_refresh_phase now db r).blocklist := by
  cases r with
  | none => exact hb
  | some rt =>
    simp only [logout_refresh_phase]
    cases hv : verify_refresh_token now db rt with
    | error e => exact hb
    | ok pr =>
      obtain ⟨u, row⟩ := pr
      exact block_refresh_token_mono _ _ _ _ _ _ _ hb

/-- Applying the refresh half of logout twice with the same token is the
same as applying it once (unique jti index assumed). -/
theorem logout_refresh_phase_twice (now : Nat) (db1 : DB) (r : Option Token)
    (hnd : db1.refresh_tokens.Pairwise (fun x y => x.jti ≠ y.jti)) :
    logout_refresh_phase now (logout_refresh_phase now db1 r) r =
      logout_refresh_phase now db1 r := by
  cases r with
  | none => rfl
  | some rt =>
    cases hv1 : verify_refresh_token now db1 rt with
    | error e1 =>
      have h1 : logout_refresh_phase now db1 (some rt) = db1 := by
        simp [logout_refresh_phase, hv1]
      rw [h1, h1]
    | ok pr =>
      obtain ⟨u1, row1⟩ := pr
      have h1 : logout_refresh_phase now db1 (some rt) =
          block_refresh_token now (revokeTokenRow now db1 row1.jti) row1.jti
            row1.expires_at (some row1.user_id) (some "User logout") := by
        simp [logout_refresh_phase, hv1]
      rw [h1]
      cases hv2 : verify_refresh_token now
          (block_refresh_token now (revokeTokenRow now db1 row1.jti) row1.jti
            row1.expires_at (some row1.user_id) (some "User logout")) rt with
      | error e2 => simp [logout_refresh_phase, hv2]
      | ok pr2 =>
        exfalso
        obtain ⟨u2, row2⟩ := pr2
        cases rt with
        | malformed => simp [verify_refresh_token] at hv2
        | signed c2 =>
          obtain ⟨_, _, _, _, _, hmem2, hpj2, hprev2⟩ :=
            verify_ok_facts now _ c2 u2 row2 hv2
          obtain ⟨_, _, _, _, _, hmem1, hpj1, hprev1⟩ :=
            verify_ok_facts now _ c2 u1 row1 hv1
          have hrows2 : (block_refresh_token now (revokeTokenRow now db1 row1.jti)
              row1.jti row1.expires_at (some row1.user_id)
              (some "User logout")).refresh_tokens =
                revokeFirst now db1.refresh_tokens row1.jti := by
            rw [block_refresh_token_rows]
            rfl
          have hkill : row2.revoked = true :=
            revokeFirst_kills now row1.jti _ hnd row2
              (hrows2 ▸ hmem2) (hpj2.trans hpj1.symm)
          rw [hprev2] at hkill
          exact Bool.false_ne_true hkill

/-- C7 amended: logout always answers 204 no-content; repeating it with
the same inputs changes nothing (given the unique jti index); a bearer
access token that decodes with truthy jti and exp ends blocklisted; and
a body refresh token that verifies ends with its row flagged revoked.
Already-invalid inputs are skipped without effect rather than revoked. -/
theorem C7_logout_idempotent (now : Nat) (db : DB) (a r : Option Token) :
    (logout now db a r).1 = 204 ∧
    (db.refresh_tokens.Pairwise (fun x y => x.jti ≠ y.jti) →
      logout now (logout now db a r).2 a r = (204, (logout now db a r).2)) ∧
    (∀ c : Claims, a = some (.signed c) → truthyStr c.jti = true →
      truthyNat c.exp = true →
      ∃ b ∈ (logout now db a r).2.blocklist, b.jti = c.jti.getD "") ∧
    (∀ rt u row, r = some rt →
      verify_refresh_token now (logout_access_phase now db a) rt = .ok (u, row) →
      ∃ rr ∈ (logout now db a r).2.refresh_tokens,
        rr.jti = row.jti ∧ rr.revoked = true) := by
  have haccIdem : ∀ dbX : DB,
      (∀ b ∈ (logout_access_phase now db a).blocklist, b ∈ dbX.blocklist) →
      logout_access_phase now dbX a = dbX := by
    intro dbX hsub
    cases a with
    | none => rfl
    | some t =>
      cases t with
      | malformed => rfl
      | signed c =>
        simp only [logout_access_phase, jwtDecodeNoExp] at hsub ⊢
        by_cases hcond : (truthyStr c.jti && truthyNat c.exp) = true
        · rw [if_pos hcond]
          rw [if_pos hcond] at hsub
          apply block_access_token_noop
          obtain ⟨b, hb, hbj⟩ := block_access_token_hit now db (c.jti.getD "")
            (c.exp.getD 0)
            (match c.sub with
             | some em => (findUserByEmail db em).map (·.id)
             | none => none) (some "User logout")
          exact ⟨b, hsub b hb, hbj⟩
        · rw [if_neg hcond]
  refine ⟨rfl, ?_, ?_, ?_⟩
  · intro hnd
    have hsub2 : ∀ b ∈ (logout_access_phase now db a).blocklist,
        b ∈ ((logout now db a r).2).blocklist := by
      intro b hb
      exact logout_refresh_phase_bl_mono now (logout_access_phase now db a) r b hb
    have hacc2 : logout_access_phase now (logout now db a r).2 a =
        (logout now db a r).2 := haccIdem _ hsub2
    have hPair1 : (logout_access_phase now db a).refresh_tokens.Pairwise
        (fun x y => x.jti ≠ y.jti) := by
      rw [logout_access_phase_rows]
      exact hnd
    have href2 := logout_refresh_phase_twice now (logout_access_phase now db a)
      r hPair1
    show (204, logout_refresh_phase now
        (logout_access_phase now (logout now db a r).2 a) r) =
      (204, (logout now db a r).2)
    rw [hacc2]
    show (204, logout_refresh_phase now
        (logout_refresh_phase now (logout_access_phase now db a) r) r) =
      (204, (logout now db a r).2)
    rw [href2]
    rfl
  · intro c ha hjt hexpT
    subst ha
    have h1 : ∃ b ∈ (logout_access_phase now db (some (.signed c))).blocklist,
        b.jti = c.jti.getD "" := by
      simp only [logout_access_phase, jwtDecodeNoExp]
      rw [if_pos (by rw [hjt, hexpT]; rfl)]
      exact block_access_token_hit ..
    obtain ⟨b, hb, hbj⟩ := h1
    exact ⟨b, logout_refresh_phase_bl_mono now _ r b hb, hbj⟩
  · intro rt u row hr hv
    subst hr
    show ∃ rr ∈ (logout_refresh_phase now (logout_access_phase now db a)
      (some rt)).refresh_tokens, rr.jti = row.jti ∧ rr.revoked = true
    simp only [logout_refresh_phase, hv]
    rw [block_refresh_token_rows]
    have hmemrow : ∃ r0 ∈ (logout_access_phase now db a).refresh_tokens,
        r0.jti = row.jti := by
      cases rt with
      | malformed => simp [verify_refresh_token] at hv
      | signed c' =>
        obtain ⟨_, _, _, _, _, hmem, _, _⟩ := verify_ok_facts now _ c' u row hv
        exact ⟨row, hmem, rfl⟩
    obtain ⟨rr, hrr, hjti', hrev'⟩ :=
      revokeFirst_revokes now row.jti _ hmemrow
    exact ⟨rr, hrr, hjti', hrev'⟩

/-- C7 counterexample: logout at time 10 with an already-invalid
(expired, never revoked) refresh token answers 204 but leaves the
presented token's row un-revoked, refuting the claim that the presented
tokens always end revoked after the call. -/
theorem C7_counterexample :
    (logout 10 dbC7 none (some rtExpiredC7)).1 = 204 ∧
    ((logout 10 dbC7 none (some rtExpiredC7)).2.refresh_tokens.all
      (fun rr => !rr.revoked)) = true := by
  decide

/-- C7 witness: idempotence and the revocation effects instantiated on a
concrete logout carrying a valid access token and a valid refresh
token. -/
theorem C7_witness :
    logout 10 (logout 10 dbRot (some (.signed cAccC7)) (some (.signed cRot))).2
        (some (.signed cAccC7)) (some (.signed cRot)) =
      (204, (logout 10 dbRot (some (.signed cAccC7)) (some (.signed cRot))).2) ∧
    (∃ b ∈ (logout 10 dbRot (some (.signed cAccC7))
        (some (.signed cRot))).2.blocklist, b.jti = "a1") ∧
    (∃ rr ∈ (logout 10 dbRot (some (.signed cAccC7))
        (some (.signed cRot))).2.refresh_tokens,
      rr.jti = "r1" ∧ rr.revoked = true) := by
  have h := C7_logout_idempotent 10 dbRot (some (.signed cAccC7))
    (some (.signed cRot))
  refine ⟨h.2.1 (by simp [dbRot]), ?_, ?_⟩
  · have h3 := h.2.2.1 cAccC7 rfl (by decide) (by decide)
    simpa using h3
  · have hv : verify_refresh_token 10
        (logout_access_phase 10 dbRot (some (.signed cAccC7))) (.signed cRot) =
          .ok ( { id := 1, email := "a@b.com"
                , hashed_password := get_password_hash "pw", is_active := true }
              , { id := 1, user_id := 1, jti := "r1", expires_at := 1000
                , created_at := 0, revoked := false, revoked_at := none
                , device_info := none, ip_address := none } ) := by
      decide
    have h4 := h.2.2.2 (.signed cRot) _ _ rfl hv
    simpa using h4

/-- The fresh-name source is injective (uuid4 non-collision). -/
theorem freshJti_inj : ∀ a b : Nat, freshJti a = freshJti b → a = b := by
  intro a b h
  have h2 : (freshJti a).data = (freshJti b).data := by rw [h]
  simpa [freshJti] using congrArg List.length h2

/-- A table evolves trivially to itself. -/
theorem rowsEvolve_refl (gen gen2 : Nat) (l : List RefreshTokenRow) :
    RowsEvolve gen l gen2 l :=
  fun r2 h2 => Or.inl ⟨r2, h2, Or.inl rfl⟩

/-- Evolution composes along a monotone name source. -/
theorem rowsEvolve_trans (gen gen1 gen2 : Nat)
    (A B C : List RefreshTokenRow)
    (h1 : RowsEvolve gen A gen1 B) (h2 : RowsEvolve gen1 B gen2 C)
    (hg : gen ≤ gen1) (hg2 : gen1 ≤ gen2) :
    RowsEvolve gen A gen2 C := by
  intro r2 hr2
  rcases h2 r2 hr2 with ⟨rB, hrB, hcase⟩ | ⟨hra, g, hg1, hg2', hjti⟩
  · rcases h1 rB hrB with ⟨rA, hrA, hcaseA⟩ | ⟨hraB, g, hgl, hgu, hjtiB⟩
    · rcases hcase with hc | ⟨t, hc⟩
      · rcases hcaseA with hcA | ⟨tA, hcA⟩
        · exact Or.inl ⟨rA, hrA, Or.inl (hc.trans hcA)⟩
        · exact Or.inl ⟨rA, hrA, Or.inr ⟨tA, hc.trans hcA⟩⟩
      · rcases hcaseA with hcA | ⟨tA, hcA⟩
        · exact Or.inl ⟨rA, hrA, Or.inr ⟨t, by rw [hc, hcA]⟩⟩
        · exact Or.inl ⟨rA, hrA, Or.inr ⟨t, by rw [hc, hcA]⟩⟩
    · rcases hcase with hc | ⟨t, hc⟩
      · exact Or.inr ⟨hc ▸ hraB, g, hgl, lt_of_lt_of_le hgu hg2, hc ▸ hjtiB⟩
      · refine Or.inr ⟨?_, g, hgl, lt_of_lt_of_le hgu hg2, ?_⟩
        · intro _; rw [hc]; simp
        · rw [hc]; exact hjtiB
  · exact Or.inr ⟨hra, g, le_trans hg hg1, hg2', hjti⟩

/-- revokeFirst evolves the table. -/
theorem rowsEvolve_revokeFirst (gen gen2 now : Nat) (j : String)
    (l : List RefreshTokenRow) :
    RowsEvolve gen l gen2 (revokeFirst now l j) := by
  intro r2 hr2
  obtain ⟨r, hr, hc⟩ := mem_revokeFirst now j l r2 hr2
  rcases hc with hc | hc
  · exact Or.inl ⟨r, hr, Or.inl hc⟩
  · exact Or.inl ⟨r, hr, Or.inr ⟨now, hc⟩⟩

/-- Filtering (cleanup) evolves the table. -/
theorem rowsEvolve_filter (gen gen2 : Nat) (p : RefreshTokenRow → Bool)
    (l : List RefreshTokenRow) :
    RowsEvolve gen l gen2 (l.filter p) :=
  fun r2 h2 => Or.inl ⟨r2, List.mem_of_mem_filter h2, Or.inl rfl⟩

/-- The revoke_all bulk update evolves the table. -/
theorem rowsEvolve_bulk (gen gen2 now : Nat) (uid : Nat)
    (l : List RefreshTokenRow) :
    RowsEvolve gen l gen2 (l.map (fun r =>
      if r.user_id == uid && !r.revoked then
        { r with revoked := true, revoked_at := some now }
      else r)) := by
  intro r2 hr2
  obtain ⟨r, hr, hc⟩ := List.mem_map.mp hr2
  by_cases hcond : (r.user_id == uid && !r.revoked) = true
  · rw [if_pos hcond] at hc
    exact Or.inl ⟨r, hr, Or.inr ⟨now, hc.symm⟩⟩
  · rw [if_neg hcond] at hc
    exact Or.inl ⟨r, hr, Or.inl hc.symm⟩

/-- Appending the freshly created row of create_refresh_token evolves
the table. -/
theorem rowsEvolve_append_new (gen g gen2 : Nat)
    (l l2 : List RefreshTokenRow) (row : RefreshTokenRow)
    (hl : RowsEvolve gen l gen2 l2)
    (hg1 : gen ≤ g) (hg2 : g < gen2)
    (hrow : row.revoked = false) (hjti : row.jti = freshJti g) :
    RowsEvolve gen l gen2 (l2 ++ [row]) := by
  intro r2 hr2
  rcases List.mem_append.mp hr2 with h1 | h1
  · exact hl r2 h1
  · rw [List.mem_singleton.mp h1]
    exact Or.inr ⟨by rw [hrow]; simp, g, hg1, hg2, hjti⟩

/-- Folding blocklist inserts never touches refresh_tokens. -/
theorem foldl_block_rows (now : Nat) (uid : Option Nat) (rsn : Option String) :
    ∀ (l : List RefreshTokenRow) (db : DB),
      (l.foldl (fun d r => block_refresh_token now d r.jti r.expires_at uid rsn)
        db).refresh_tokens = db.refresh_tokens := by
  intro l
  induction l with
  | nil => intro db; rfl
  | cons r rs ih =>
    intro db
    rw [List.foldl_cons, ih, block_refresh_token_rows]

/-- The refresh_tokens table after revoke_all is the conditional bulk
update of the original. -/
theorem revoke_all_rows (now : Nat) (db : DB) (uid : Nat) :
    (revoke_all_user_tokens now db uid).1.refresh_tokens =
      db.refresh_tokens.map (fun r =>
        if r.user_id == uid && !r.revoked then
          { r with revoked := true, revoked_at := some now }
        else r) := by
  simp only [revoke_all_user_tokens]
  rw [foldl_block_rows]

/-- A successful logout-all leaves the refresh_tokens table as the bulk
update for the authenticated user. -/
theorem logout_all_ok_rows (now : Nat) (db : DB) (t : Token) (n : Nat)
    (db' : DB) (h : logout_all_devices now db t = .ok (n, db')) :
    ∃ uid, db'.refresh_tokens = db.refresh_tokens.map (fun r =>
      if r.user_id == uid && !r.revoked then
        { r with revoked := true, revoked_at := some now }
      else r) := by
  simp only [logout_all_devices] at h
  cases hg : get_current_userResp now db t with
  | error e => rw [hg] at h; exact absurd h (by simp)
  | ok user =>
    rw [hg] at h
    simp only [Except.ok.injEq, Prod.mk.injEq] at h
    refine ⟨user.id, ?_⟩
    rw [← h.2, ← revoke_all_rows now db user.id]
    cases hd : jwtDecodeNoExp t with
    | none => rfl
    | some c =>
      show (if (truthyStr c.jti && truthyNat c.exp) = true then
          block_access_token now (revoke_all_user_tokens now db user.id).1
            (c.jti.getD "") (c.exp.getD 0) (some user.id)
            (some "User logout all devices")
        else (revoke_all_user_tokens now db user.id).1).refresh_tokens =
        (revoke_all_user_tokens now db user.id).1.refresh_tokens
      by_cases hcond : (truthyStr c.jti && truthyNat c.exp) = true
      · rw [if_pos hcond]
        exact block_access_token_rows ..
      · rw [if_neg hcond]

/-- Evolution of login: the name source only advances and the table only
gains the freshly created refresh row. -/
theorem login_evolve (cfg : Settings) (now : Nat) (db : DB)
    (cs : CounterStore) (gen : Nat) (ip u p : String) (ua : Option String) :
    gen ≤ (login cfg now db cs gen ip u p ua).2.2.2 ∧
    RowsEvolve gen db.refresh_tokens (login cfg now db cs gen ip u p ua).2.2.2
      (login cfg now db cs gen ip u p ua).2.1.refresh_tokens := by
  simp only [login]
  split
  · exact ⟨le_refl gen, rowsEvolve_refl gen gen db.refresh_tokens⟩
  · cases hf : findUserByEmail db u with
    | none => exact ⟨le_refl gen, rowsEvolve_refl gen gen db.refresh_tokens⟩
    | some user =>
      simp only [create_access_token, create_refresh_token]
      split
      · exact ⟨le_refl gen, rowsEvolve_refl gen gen db.refresh_tokens⟩
      · refine ⟨(by omega : gen ≤ gen + 1 + 1), ?_⟩
        exact rowsEvolve_append_new gen (gen + 1) (gen + 2) db.refresh_tokens
          db.refresh_tokens _
          (rowsEvolve_refl gen (gen + 2) db.refresh_tokens)
          (by omega) (by omega) rfl rfl

/-- Evolution of logout: the name source is untouched and rows are only
kept or revoked. -/
theorem logout_rows_evolve (now : Nat) (db : DB) (a r : Option Token)
    (gen : Nat) :
    RowsEvolve gen db.refresh_tokens gen (logout now db a r).2.refresh_tokens := by
  have h1 := logout_access_phase_rows now db a
  show RowsEvolve gen db.refresh_tokens gen
    (logout_refresh_phase now (logout_access_phase now db a) r).refresh_tokens
  cases r with
  | none =>
    show RowsEvolve gen db.refresh_tokens gen
      (logout_access_phase now db a).refresh_tokens
    rw [h1]
    exact rowsEvolve_refl gen gen db.refresh_tokens
  | some rt =>
    simp only [logout_refresh_phase]
    cases hv : verify_refresh_token now (logout_access_phase now db a) rt with
    | error e =>
      show RowsEvolve gen db.refresh_tokens gen
        (logout_access_phase now db a).refresh_tokens
      rw [h1]
      exact rowsEvolve_refl gen gen db.refresh_tokens
    | ok pr =>
      obtain ⟨u, row⟩ := pr
      show RowsEvolve gen db.refresh_tokens gen
        (block_refresh_token now
          (revokeTokenRow now (logout_access_phase now db a) row.jti) row.jti
          row.expires_at (some row.user_id) (some "User logout")).refresh_tokens
      rw [block_refresh_token_rows]
      show RowsEvolve gen db.refresh_tokens gen
        (revokeFirst now (logout_access_phase now db a).refresh_tokens row.jti)
      rw [h1]
      exact rowsEvolve_revokeFirst gen gen now row.jti db.refresh_tokens

/-- Evolution of one step of the subsystem: the name source only
advances, and the refresh_tokens table only keeps rows, revokes rows with
a timestamp, or gains fresh rows. -/
theorem step_evolve (cfg : Settings) (op : AuthOp) (s : SysState) :
    s.gen ≤ (step cfg op s).gen ∧
    RowsEvolve s.gen s.db.refresh_tokens (step cfg op s).gen
      (step cfg op s).db.refresh_tokens := by
  cases op with
  | loginOp now ip u p ua => exact login_evolve cfg now s.db s.counters s.gen ip u p ua
  | refreshOp now t ip ua =>
    simp only [step]
    cases hro : refresh_tokens_op cfg now s.db s.gen t ip ua with
    | error e => exact ⟨le_refl s.gen, rowsEvolve_refl s.gen s.gen s.db.refresh_tokens⟩
    | ok q =>
      obtain ⟨a, b, db', g'⟩ := q
      cases hv : verify_refresh_token now s.db t with
      | error e1 =>
        rw [refresh_tokens_op, hv] at hro
        exact absurd hro (by simp)
      | ok pr =>
        obtain ⟨user, old⟩ := pr
        rw [refresh_tokens_op, hv] at hro
        simp only [create_access_token, Except.ok.injEq, Prod.mk.injEq] at hro
        obtain ⟨_, _, hdb', hg'⟩ := hro
        have hg2 : g' = s.gen + 2 := by rw [← hg']; rfl
        have hrows : db'.refresh_tokens =
            revokeFirst now s.db.refresh_tokens old.jti ++
              [(create_refresh_token cfg now (rotate_revoke_phase now s.db user old)
                user ua ip (s.gen + 1)).2.1] := by
          rw [← hdb']
          show ((rotate_revoke_phase now s.db user old).refresh_tokens ++ _) = _
          rw [rotate_revoke_phase, block_refresh_token_rows]
          rfl
        show s.gen ≤ g' ∧
          RowsEvolve s.gen s.db.refresh_tokens g' db'.refresh_tokens
        rw [hrows, hg2]
        refine ⟨by omega, ?_⟩
        exact rowsEvolve_append_new s.gen (s.gen + 1) (s.gen + 2)
          s.db.refresh_tokens (revokeFirst now s.db.refresh_tokens old.jti) _
          (rowsEvolve_revokeFirst s.gen (s.gen + 2) now old.jti s.db.refresh_tokens)
          (by omega) (by omega) rfl rfl
  | logoutOp now a r => exact ⟨le_refl _, logout_rows_evolve now s.db a r s.gen⟩
  | logoutAllOp now t =>
    simp only [step]
    cases hla : logout_all_devices now s.db t with
    | error e => exact ⟨le_refl s.gen, rowsEvolve_refl s.gen s.gen s.db.refresh_tokens⟩
    | ok q =>
      obtain ⟨n, db'⟩ := q
      obtain ⟨uid, hrows⟩ := logout_all_ok_rows now s.db t n db' hla
      rw [hrows]
      exact ⟨le_refl s.gen, rowsEvolve_bulk s.gen s.gen now uid s.db.refresh_tokens⟩
  | validateOp now t =>
    exact ⟨le_refl s.gen, rowsEvolve_refl s.gen s.gen s.db.refresh_tokens⟩
  | cleanupOp now =>
    exact ⟨le_refl s.gen, rowsEvolve_filter s.gen s.gen _ s.db.refresh_tokens⟩

/-- Preservation along one step: the revoked-at invariant and generator
freshness persist, the name source is monotone, and a fully-revoked jti
stays fully revoked. -/
theorem step_preserves (cfg : Settings) (op : AuthOp) (s : SysState)
    (hinv : RevokedAtInv s.db) (hgen : GenFresh s) :
    RevokedAtInv (step cfg op s).db ∧ GenFresh (step cfg op s) ∧
    s.gen ≤ (step cfg op s).gen ∧
    (∀ j, JtiNotFresh s.gen j → AllRevoked s.db j →
      AllRevoked (step cfg op s).db j) := by
  obtain ⟨hmono, hev⟩ := step_evolve cfg op s
  refine ⟨?_, ?_, hmono, ?_⟩
  · intro r2 h2 hrev
    rcases hev r2 h2 with ⟨r, hr, hc | ⟨t, hc⟩⟩ | ⟨hra, _, _, _, _⟩
    · subst hc; exact hinv r2 hr hrev
    · rw [hc]; simp
    · exact hra hrev
  · intro r2 h2 g hge
    rcases hev r2 h2 with ⟨r, hr, hc | ⟨t, hc⟩⟩ | ⟨_, g0, hg0l, hg0u, hjti⟩
    · subst hc; exact hgen r2 hr g (le_trans hmono hge)
    · rw [hc]
      exact hgen r hr g (le_trans hmono hge)
    · rw [hjti]
      intro heq
      have := freshJti_inj _ _ heq
      omega
  · intro j hjnf hall r2 h2 hj
    rcases hev r2 h2 with ⟨r, hr, hc | ⟨t, hc⟩⟩ | ⟨_, g0, hg0l, _, hjti⟩
    · subst hc; exact hall r2 hr hj
    · rw [hc]
    · exact absurd (hj ▸ hjti) (hjnf g0 hg0l)

/-- Preservation along any operation sequence. -/
theorem runOps_preserves (cfg : Settings) (ops : List AuthOp) :
    ∀ s : SysState, RevokedAtInv s.db → GenFresh s →
    ∀ j, JtiNotFresh s.gen j → AllRevoked s.db j →
      RevokedAtInv (runOps cfg ops s).db ∧ GenFresh (runOps cfg ops s) ∧
        AllRevoked (runOps cfg ops s).db j := by
  induction ops with
  | nil => intro s h1 h2 j _ h4; exact ⟨h1, h2, h4⟩
  | cons op rest ih =>
    intro s h1 h2 j h3 h4
    obtain ⟨hi1, hi2, hi3, hi4⟩ := step_preserves cfg op s h1 h2
    have h3' : JtiNotFresh (step cfg op s).gen j :=
      fun g hg => h3 g (le_trans hi3 hg)
    exact ih (step cfg op s) hi1 hi2 j h3' (hi4 j h3 h4)

/-- C9: once a refresh-token row is revoked, no operation of the
subsystem (login, rotation, logout, logout-all, validation, maintenance
cleanup) ever reverts it — after any sequence of operations every row
still carrying that jti remains revoked — and the invariant revoked ⇒
revoked-at-set holds in every reachable state.  Hypotheses: the starting
state satisfies the invariant and generator freshness. -/
theorem C9_revoked_is_terminal (cfg : Settings) (ops : List AuthOp)
    (s : SysState) (r : RefreshTokenRow)
    (hinv : RevokedAtInv s.db) (hgen : GenFresh s)
    (hmem : r ∈ s.db.refresh_tokens) (_hrev : r.revoked = true)
    (hall : AllRevoked s.db r.jti) :
    RevokedAtInv (runOps cfg ops s).db ∧
    AllRevoked (runOps cfg ops s).db r.jti := by
  have hjnf : JtiNotFresh s.gen r.jti := fun g hg => hgen r hmem g hg
  obtain ⟨h1, _, h3⟩ := runOps_preserves cfg ops s hinv hgen r.jti hjnf hall
  exact ⟨h1, h3⟩

/-- No fresh unique-id ever equals the literal jti r1. -/
theorem r1_not_fresh : ∀ g : Nat, "r1" ≠ freshJti g := by
  intro g h
  have hd : ("r1" : String).data = (freshJti g).data := congrArg String.data h
  rw [show ("r1" : String).data = ['r', '1'] from rfl] at hd
  simp only [freshJti] at hd
  have hr := (List.eq_replicate_iff.mp hd).2 'r' (by simp)
  exact absurd hr (by decide)

/-- C9 witness: the terminal-state preservation at a concrete state under
a concrete operation sequence exercising every operation kind. -/
theorem C9_witness :
    RevokedAtInv (runOps cfgDefault
      [ .loginOp 10 "1.2.3.4" "a@b.com" "pw" none
      , .refreshOp 20 (.signed cRot) none none
      , .logoutOp 30 none (some (.signed cRot))
      , .logoutAllOp 40 (.signed cAccC7)
      , .validateOp 50 (.signed cAccC7)
      , .cleanupOp 2592000 ] sC9).db ∧
    AllRevoked (runOps cfgDefault
      [ .loginOp 10 "1.2.3.4" "a@b.com" "pw" none
      , .refreshOp 20 (.signed cRot) none none
      , .logoutOp 30 none (some (.signed cRot))
      , .logoutAllOp 40 (.signed cAccC7)
      , .validateOp 50 (.signed cAccC7)
      , .cleanupOp 2592000 ] sC9).db "r1" := by
  apply C9_revoked_is_terminal cfgDefault _ sC9
    { id := 1, user_id := 1, jti := "r1", expires_at := 1000, created_at := 0
    , revoked := true, revoked_at := some 3, device_info := none
    , ip_address := none }
  · intro r hr _
    simp only [sC9, List.mem_singleton] at hr
    subst hr
    simp
  · intro r hr g hg
    simp only [sC9, List.mem_singleton] at hr
    subst hr
    exact r1_not_fresh g
  · simp [sC9]
  · rfl
  · intro r hr hj
    simp only [sC9, List.mem_singleton] at hr
    subst hr
    rfl
